import Mathlib

/-!
Verification of the pynbody Gadget snapshot reader/writer (pynbody/gadget.py)
and the SPH smoothing/rasterization helpers (pynbody/sph/init file),
shallowly embedded in Lean.

Conventions of the embedding:
* File contents are lists of bytes, each byte a natural number below 256.
* Multi-byte integer fields (struct codes I, i) are modelled by their w-byte
  words, i.e. natural numbers below 256^w; signed fields are represented by
  their raw 32-bit word, which is a bijective recoding of the signed value.
* Floating-point fields (struct codes d, f) are modelled by their raw 8- or
  4-byte bit patterns: struct.pack writes the IEEE bytes verbatim and
  struct.unpack reads them back, so equality of bit patterns is exactly
  what a byte-level round trip preserves.
* The byte order argument be = true models a byte-swapped (foreign endian)
  file, be = false a native-order file.
-/

/-- Little-endian byte list (length w) of a natural number, as written by
struct.pack for a w-byte integer field. -/
def natToBytesLE : Nat → Nat → List Nat
  | 0, _ => []
  | w + 1, n => n % 256 :: natToBytesLE w (n / 256)

/-- Value of a little-endian byte list, as read by struct.unpack. -/
def bytesToNatLE : List Nat → Nat
  | [] => 0
  | b :: bs => b + 256 * bytesToNatLE bs

/-- Pack a w-byte integer with the given byte order. -/
def packW (w : Nat) (be : Bool) (n : Nat) : List Nat :=
  if be then (natToBytesLE w n).reverse else natToBytesLE w n

/-- Unpack a w-byte field with the given byte order. -/
def unpackW (be : Bool) (bs : List Nat) : Nat :=
  if be then bytesToNatLE bs.reverse else bytesToNatLE bs

/-- Read one w-byte field from the head of a byte stream, returning the value
and the remaining bytes. -/
def readW (w : Nat) (be : Bool) (bs : List Nat) : Nat × List Nat :=
  (unpackW be (bs.take w), bs.drop w)

/-- Read k consecutive w-byte fields. -/
def readN : Nat → Nat → Bool → List Nat → List Nat × List Nat
  | 0, _, _, bs => ([], bs)
  | k + 1, w, be, bs =>
    let r := readW w be bs
    let rs := readN k w be r.2
    (r.1 :: rs.1, rs.2)

/-- Pack a list of w-byte integers. -/
def packL (w : Nat) (be : Bool) : List Nat → List Nat
  | [] => []
  | n :: ns => packW w be n ++ packL w be ns

theorem length_natToBytesLE (w n : Nat) : (natToBytesLE w n).length = w := by
  induction w generalizing n with
  | zero => rfl
  | succ w ih => simp [natToBytesLE, ih]

theorem length_packW (w : Nat) (be : Bool) (n : Nat) : (packW w be n).length = w := by
  cases be <;> simp [packW, length_natToBytesLE]

theorem bytesToNatLE_natToBytesLE (w n : Nat) :
    bytesToNatLE (natToBytesLE w n) = n % 256 ^ w := by
  induction w generalizing n with
  | zero => simp [natToBytesLE, bytesToNatLE, Nat.mod_one]
  | succ w ih =>
    calc bytesToNatLE (natToBytesLE (w+1) n)
        = n % 256 + 256 * ((n / 256) % 256 ^ w) := by
          simp [natToBytesLE, bytesToNatLE, ih]
      _ = n % (256 * 256 ^ w) := Nat.mod_mul.symm
      _ = n % 256 ^ (w+1) := by rw [pow_succ, mul_comm]

theorem unpackW_packW (w : Nat) (be : Bool) (n : Nat) :
    unpackW be (packW w be n) = n % 256 ^ w := by
  cases be <;> simp [unpackW, packW, bytesToNatLE_natToBytesLE]

theorem length_packL (w : Nat) (be : Bool) (v : List Nat) :
    (packL w be v).length = w * v.length := by
  induction v with
  | nil => simp [packL]
  | cons x xs ih => simp [packL, length_packW, ih, Nat.mul_succ, Nat.add_comm]

theorem readW_packW_append (w : Nat) (be : Bool) (n : Nat) (rest : List Nat)
    (h : n < 256 ^ w) : readW w be (packW w be n ++ rest) = (n, rest) := by
  have hl : (packW w be n).length = w := length_packW w be n
  rw [readW, List.take_left' hl, List.drop_left' hl, unpackW_packW,
      Nat.mod_eq_of_lt h]

theorem readN_packL_append (w : Nat) (be : Bool) (v : List Nat) (rest : List Nat)
    (h : ∀ x ∈ v, x < 256 ^ w) :
    readN v.length w be (packL w be v ++ rest) = (v, rest) := by
  induction v with
  | nil => simp [packL, readN]
  | cons x xs ih =>
    have hx : x < 256 ^ w := h x (by simp)
    have hxs : ∀ y ∈ xs, y < 256 ^ w := fun y hy => h y (by simp [hy])
    simp only [List.length_cons, packL, List.append_assoc, readN,
      readW_packW_append w be x _ hx, ih hxs]

/-- Validity bound for little-endian values: bytes below 256 decode below
256 to the length. -/
theorem bytesToNatLE_lt (bs : List Nat) (h : ∀ b ∈ bs, b < 256) :
    bytesToNatLE bs < 256 ^ bs.length := by
  induction bs with
  | nil => simp [bytesToNatLE]
  | cons b bs ih =>
    have hb := h b (by simp)
    have hbs := ih (fun y hy => h y (by simp [hy]))
    simp only [bytesToNatLE, List.length_cons, pow_succ]
    omega

theorem unpackW_take_lt (w : Nat) (be : Bool) (bs : List Nat)
    (h : ∀ b ∈ bs, b < 256) : unpackW be (bs.take w) < 256 ^ w := by
  have hsub : ∀ b ∈ bs.take w, b < 256 := fun b hb => h b (List.take_subset w bs hb)
  have hlen : (bs.take w).length ≤ w := by simp
  have hmono : 256 ^ (bs.take w).length ≤ 256 ^ w :=
    Nat.pow_le_pow_right (by norm_num) hlen
  cases be with
  | false => exact lt_of_lt_of_le (bytesToNatLE_lt _ hsub) hmono
  | true =>
    have : ∀ b ∈ (bs.take w).reverse, b < 256 := fun b hb => hsub b (by simpa using hb)
    have := bytesToNatLE_lt _ this
    simp only [List.length_reverse] at this
    exact lt_of_lt_of_le (by simpa [unpackW] using this) hmono

theorem readW_fst_lt (w : Nat) (be : Bool) (bs : List Nat)
    (h : ∀ b ∈ bs, b < 256) : (readW w be bs).1 < 256 ^ w :=
  unpackW_take_lt w be bs h

theorem readW_snd_valid (w : Nat) (be : Bool) (bs : List Nat)
    (h : ∀ b ∈ bs, b < 256) : ∀ b ∈ (readW w be bs).2, b < 256 :=
  fun b hb => h b (List.drop_subset w bs hb)

theorem readN_snd_valid (k w : Nat) (be : Bool) (bs : List Nat)
    (h : ∀ b ∈ bs, b < 256) : ∀ b ∈ (readN k w be bs).2, b < 256 := by
  induction k generalizing bs with
  | zero => exact fun b hb => h b hb
  | succ k ih => exact ih _ (readW_snd_valid w be bs h)

theorem readN_fst_lt (k w : Nat) (be : Bool) (bs : List Nat)
    (h : ∀ b ∈ bs, b < 256) : ∀ x ∈ (readN k w be bs).1, x < 256 ^ w := by
  induction k generalizing bs with
  | zero => simp [readN]
  | succ k ih =>
    intro x hx
    simp only [readN, List.mem_cons] at hx
    rcases hx with hx | hx
    · exact hx ▸ readW_fst_lt w be bs h
    · exact ih _ (readW_snd_valid w be bs h) x hx

theorem readN_fst_length (k w : Nat) (be : Bool) (bs : List Nat) :
    (readN k w be bs).1.length = k := by
  induction k generalizing bs with
  | zero => rfl
  | succ k ih => simp [readN, ih]

/-- Header of one Gadget file (class GadgetHeader in gadget.py).  Fields hold
the raw on-disk words: 32-bit fields (struct I and i) are naturals below
2^32, 64-bit double fields their 8-byte bit pattern below 2^64, and the
32-bit float lpt_scalingfactor its 4-byte bit pattern.  The six-element
arrays npart, mass, npartTotal and NallHW are lists of such words.  The 48
fill bytes unpacked by the 48s code are discarded, exactly as the
constructor discards them. -/
structure GadgetHeader where
  npart : List Nat
  mass : List Nat
  time : Nat
  redshift : Nat
  flag_sfr : Nat
  flag_feedback : Nat
  npartTotal : List Nat
  flag_cooling : Nat
  num_files : Nat
  BoxSize : Nat
  Omega0 : Nat
  OmegaLambda : Nat
  HubbleParam : Nat
  flag_stellarage : Nat
  flag_metals : Nat
  NallHW : List Nat
  flag_entropy_instead_u : Nat
  flag_doubleprecision : Nat
  flag_ic_info : Nat
  lpt_scalingfactor : Nat
  deriving Repr, DecidableEq

/-- Decode the 256-byte HEAD payload into a header, following the struct
format IIIIIIddddddddiiIIIIIIiiddddiiIIIIIIiiif48s used by
GadgetHeader.init in gadget.py (the trailing 48 fill bytes are read over
and discarded). -/
def parseHeader (be : Bool) (bs : List Nat) : GadgetHeader :=
  let r1 := readN 6 4 be bs
  let r2 := readN 6 8 be r1.2
  let r3 := readW 8 be r2.2
  let r4 := readW 8 be r3.2
  let r5 := readW 4 be r4.2
  let r6 := readW 4 be r5.2
  let r7 := readN 6 4 be r6.2
  let r8 := readW 4 be r7.2
  let r9 := readW 4 be r8.2
  let r10 := readW 8 be r9.2
  let r11 := readW 8 be r10.2
  let r12 := readW 8 be r11.2
  let r13 := readW 8 be r12.2
  let r14 := readW 4 be r13.2
  let r15 := readW 4 be r14.2
  let r16 := readN 6 4 be r15.2
  let r17 := readW 4 be r16.2
  let r18 := readW 4 be r17.2
  let r19 := readW 4 be r18.2
  let r20 := readW 4 be r19.2
  { npart := r1.1, mass := r2.1, time := r3.1, redshift := r4.1,
    flag_sfr := r5.1, flag_feedback := r6.1, npartTotal := r7.1,
    flag_cooling := r8.1, num_files := r9.1, BoxSize := r10.1,
    Omega0 := r11.1, OmegaLambda := r12.1, HubbleParam := r13.1,
    flag_stellarage := r14.1, flag_metals := r15.1, NallHW := r16.1,
    flag_entropy_instead_u := r17.1, flag_doubleprecision := r18.1,
    flag_ic_info := r19.1, lpt_scalingfactor := r20.1 }

/-- GadgetHeader.serialize: pack the first 208 header bytes using the format
IIIIIIddddddddiiIIIIIIiiddddiiIIIIIIiiif, deliberately not emitting the 48
padding bytes (the comment in serialize explains that the padding may hold
extra data that must not be overwritten). -/
def serializeHeader (be : Bool) (h : GadgetHeader) : List Nat :=
  packL 4 be h.npart ++ packL 8 be h.mass ++ packW 8 be h.time ++
  packW 8 be h.redshift ++ packW 4 be h.flag_sfr ++ packW 4 be h.flag_feedback ++
  packL 4 be h.npartTotal ++ packW 4 be h.flag_cooling ++ packW 4 be h.num_files ++
  packW 8 be h.BoxSize ++ packW 8 be h.Omega0 ++ packW 8 be h.OmegaLambda ++
  packW 8 be h.HubbleParam ++ packW 4 be h.flag_stellarage ++
  packW 4 be h.flag_metals ++ packL 4 be h.NallHW ++
  packW 4 be h.flag_entropy_instead_u ++ packW 4 be h.flag_doubleprecision ++
  packW 4 be h.flag_ic_info ++ packW 4 be h.lpt_scalingfactor

/-- Well-formedness of a header: every array has six entries and every field
fits its on-disk width.  Any header decoded from a real byte stream
satisfies this (parseHeader_wf below). -/
def HeaderWF (h : GadgetHeader) : Prop :=
  h.npart.length = 6 ∧ (∀ x ∈ h.npart, x < 256 ^ 4) ∧
  h.mass.length = 6 ∧ (∀ x ∈ h.mass, x < 256 ^ 8) ∧
  h.time < 256 ^ 8 ∧ h.redshift < 256 ^ 8 ∧
  h.flag_sfr < 256 ^ 4 ∧ h.flag_feedback < 256 ^ 4 ∧
  h.npartTotal.length = 6 ∧ (∀ x ∈ h.npartTotal, x < 256 ^ 4) ∧
  h.flag_cooling < 256 ^ 4 ∧ h.num_files < 256 ^ 4 ∧
  h.BoxSize < 256 ^ 8 ∧ h.Omega0 < 256 ^ 8 ∧ h.OmegaLambda < 256 ^ 8 ∧
  h.HubbleParam < 256 ^ 8 ∧ h.flag_stellarage < 256 ^ 4 ∧ h.flag_metals < 256 ^ 4 ∧
  h.NallHW.length = 6 ∧ (∀ x ∈ h.NallHW, x < 256 ^ 4) ∧
  h.flag_entropy_instead_u < 256 ^ 4 ∧ h.flag_doubleprecision < 256 ^ 4 ∧
  h.flag_ic_info < 256 ^ 4 ∧ h.lpt_scalingfactor < 256 ^ 4

theorem readN6_packL_append (w : Nat) (be : Bool) (v : List Nat)
    (hlen : v.length = 6) (h : ∀ x ∈ v, x < 256 ^ w) (rest : List Nat) :
    readN 6 w be (packL w be v ++ rest) = (v, rest) := by
  rw [← hlen]
  exact readN_packL_append w be v rest h

theorem readW_packW_append' (w : Nat) (be : Bool) (n : Nat) (h : n < 256 ^ w)
    (rest : List Nat) : readW w be (packW w be n ++ rest) = (n, rest) :=
  readW_packW_append w be n rest h

theorem parseHeader_serializeHeader (be : Bool) (h : GadgetHeader)
    (rest : List Nat) (hwf : HeaderWF h) :
    parseHeader be (serializeHeader be h ++ rest) = h := by
  obtain ⟨w1, w2, w3, w4, w5, w6, w7, w8, w9, w10, w11, w12, w13, w14, w15,
    w16, w17, w18, w19, w20, w21, w22, w23, w24⟩ := hwf
  simp only [parseHeader, serializeHeader, List.append_assoc,
    readN6_packL_append 4 be h.npart w1 w2,
    readN6_packL_append 8 be h.mass w3 w4,
    readW_packW_append' 8 be h.time w5,
    readW_packW_append' 8 be h.redshift w6,
    readW_packW_append' 4 be h.flag_sfr w7,
    readW_packW_append' 4 be h.flag_feedback w8,
    readN6_packL_append 4 be h.npartTotal w9 w10,
    readW_packW_append' 4 be h.flag_cooling w11,
    readW_packW_append' 4 be h.num_files w12,
    readW_packW_append' 8 be h.BoxSize w13,
    readW_packW_append' 8 be h.Omega0 w14,
    readW_packW_append' 8 be h.OmegaLambda w15,
    readW_packW_append' 8 be h.HubbleParam w16,
    readW_packW_append' 4 be h.flag_stellarage w17,
    readW_packW_append' 4 be h.flag_metals w18,
    readN6_packL_append 4 be h.NallHW w19 w20,
    readW_packW_append' 4 be h.flag_entropy_instead_u w21,
    readW_packW_append' 4 be h.flag_doubleprecision w22,
    readW_packW_append' 4 be h.flag_ic_info w23,
    readW_packW_append' 4 be h.lpt_scalingfactor w24]

theorem parseHeader_wf (be : Bool) (bs : List Nat) (hv : ∀ b ∈ bs, b < 256) :
    HeaderWF (parseHeader be bs) := by
  have v1 := readN_snd_valid 6 4 be bs hv
  have v2 := readN_snd_valid 6 8 be _ v1
  have v3 := readW_snd_valid 8 be _ v2
  have v4 := readW_snd_valid 8 be _ v3
  have v5 := readW_snd_valid 4 be _ v4
  have v6 := readW_snd_valid 4 be _ v5
  have v7 := readN_snd_valid 6 4 be _ v6
  have v8 := readW_snd_valid 4 be _ v7
  have v9 := readW_snd_valid 4 be _ v8
  have v10 := readW_snd_valid 8 be _ v9
  have v11 := readW_snd_valid 8 be _ v10
  have v12 := readW_snd_valid 8 be _ v11
  have v13 := readW_snd_valid 8 be _ v12
  have v14 := readW_snd_valid 4 be _ v13
  have v15 := readW_snd_valid 4 be _ v14
  have v16 := readN_snd_valid 6 4 be _ v15
  have v17 := readW_snd_valid 4 be _ v16
  have v18 := readW_snd_valid 4 be _ v17
  have v19 := readW_snd_valid 4 be _ v18
  exact ⟨readN_fst_length 6 4 be bs, readN_fst_lt 6 4 be bs hv,
    readN_fst_length 6 8 be _, readN_fst_lt 6 8 be _ v1,
    readW_fst_lt 8 be _ v2, readW_fst_lt 8 be _ v3,
    readW_fst_lt 4 be _ v4, readW_fst_lt 4 be _ v5,
    readN_fst_length 6 4 be _, readN_fst_lt 6 4 be _ v6,
    readW_fst_lt 4 be _ v7, readW_fst_lt 4 be _ v8,
    readW_fst_lt 8 be _ v9, readW_fst_lt 8 be _ v10,
    readW_fst_lt 8 be _ v11, readW_fst_lt 8 be _ v12,
    readW_fst_lt 4 be _ v13, readW_fst_lt 4 be _ v14,
    readN_fst_length 6 4 be _, readN_fst_lt 6 4 be _ v15,
    readW_fst_lt 4 be _ v16, readW_fst_lt 4 be _ v17,
    readW_fst_lt 4 be _ v18, readW_fst_lt 4 be _ v19⟩

theorem length_serializeHeader (be : Bool) (h : GadgetHeader)
    (hwf : HeaderWF h) : (serializeHeader be h).length = 208 := by
  obtain ⟨w1, -, w3, -, -, -, -, -, w9, -, -, -, -, -, -, -, -, -, w19, -⟩ := hwf
  simp [serializeHeader, List.length_append, length_packL, length_packW,
    w1, w3, w9, w19]

/-- GadgetFile.write_header at the level of the 256-byte HEAD payload
region: npart in the passed header is first overwritten with the file's own
particle counts, the first 208 bytes of the region are rewritten with the
serialized header, and the remaining 48 padding bytes are seeked over
(fd.seek(48,1)), i.e. left exactly as they were on disk. -/
def write_header_payload (be : Bool) (file_npart : List Nat)
    (head : GadgetHeader) (old : List Nat) : List Nat :=
  serializeHeader be { head with npart := file_npart } ++ old.drop 208

/-- C8: for every valid self-describing-format HEAD payload (256 bytes, each
a byte), decoding it, writing the header back with write_header, and
decoding the region again yields the same header fields (particle counts,
masses, time, redshift, flags, cosmological parameters, file count), and
the 48 reserved padding bytes of the on-disk HEAD payload are byte-identical
to the original: write_header serializes only the first 208 header bytes and
seeks over the padding, never rewriting it as zero. -/
theorem C8_header_roundtrip (be : Bool) (old : List Nat)
    (hlen : old.length = 256) (hv : ∀ b ∈ old, b < 256) :
    parseHeader be (write_header_payload be (parseHeader be old).npart
        (parseHeader be old) old) = parseHeader be old ∧
    (write_header_payload be (parseHeader be old).npart
        (parseHeader be old) old).drop 208 = old.drop 208 ∧
    (write_header_payload be (parseHeader be old).npart
        (parseHeader be old) old).length = 256 := by
  have hwf := parseHeader_wf be old hv
  have heta : ({ parseHeader be old with npart := (parseHeader be old).npart })
      = parseHeader be old := rfl
  have hserlen := length_serializeHeader be (parseHeader be old) hwf
  refine ⟨?_, ?_, ?_⟩
  · rw [write_header_payload, heta]
    exact parseHeader_serializeHeader be _ _ hwf
  · rw [write_header_payload, heta, List.drop_left' hserlen]
  · rw [write_header_payload, heta]
    simp [List.length_append, hserlen, List.length_drop, hlen]

theorem C8_header_roundtrip_witness :
    parseHeader false (write_header_payload false
        (parseHeader false (List.replicate 256 0)).npart
        (parseHeader false (List.replicate 256 0)) (List.replicate 256 0))
      = parseHeader false (List.replicate 256 0) ∧
    (write_header_payload false (parseHeader false (List.replicate 256 0)).npart
        (parseHeader false (List.replicate 256 0)) (List.replicate 256 0)).drop 208
      = (List.replicate 256 0).drop 208 := by
  have hv : ∀ b ∈ List.replicate 256 (0:Nat), b < 256 := by
    intro b hb
    rw [List.mem_replicate] at hb
    omega
  have h := C8_header_roundtrip false (List.replicate 256 0)
    (List.length_replicate 256 0) hv
  exact ⟨h.1, h.2.1⟩

/-- GadgetSnap.check_headers: two headers are consistent when the listed
scalar fields and the mass and npartTotal arrays agree.  NallHW and the
remaining flags are deliberately not compared (the source comments that at
least one version of N-GenICs leaves everything past flag_metals
uninitialised). -/
def check_headers (head1 head2 : GadgetHeader) : Bool :=
  if head1.time ≠ head2.time ∨ head1.redshift ≠ head2.redshift ∨
     head1.flag_sfr ≠ head2.flag_sfr ∨ head1.flag_feedback ≠ head2.flag_feedback ∨
     head1.num_files ≠ head2.num_files ∨ head1.BoxSize ≠ head2.BoxSize ∨
     head1.Omega0 ≠ head2.Omega0 ∨ head1.OmegaLambda ≠ head2.OmegaLambda ∨
     head1.HubbleParam ≠ head2.HubbleParam ∨
     head1.flag_stellarage ≠ head2.flag_stellarage ∨
     head1.flag_metals ≠ head2.flag_metals then false
  else if head1.mass ≠ head2.mass ∨ head1.npartTotal ≠ head2.npartTotal then false
  else true

/-- The loop in GadgetSnap.init over the additional files of a multi-file
snapshot: a header failing check_headers against the first file's header is
skipped with a printed warning (continue); otherwise the file is appended
to the file list and its particle counts are added to the running per-type
totals. -/
def load_snapshot_files (first : GadgetHeader) (rest : List GadgetHeader) :
    List GadgetHeader × List Nat :=
  rest.foldl
    (fun acc h =>
      if check_headers h first then
        (acc.1 ++ [h], List.zipWith (· + ·) acc.2 h.npart)
      else acc)
    ([first], first.npart)

/-- C9: a constituent file whose header fails the consistency check against
the first file's header is excluded from the file list and from the
aggregated particle counts, and loading continues with the remaining files
exactly as if the mismatched file were absent; the mismatch never aborts
snapshot construction (the loading loop is a total function). -/
theorem C9_mismatch_skipped (first : GadgetHeader)
    (rest1 rest2 : List GadgetHeader) (h : GadgetHeader)
    (hbad : check_headers h first = false) :
    load_snapshot_files first (rest1 ++ h :: rest2)
      = load_snapshot_files first (rest1 ++ rest2) := by
  simp [load_snapshot_files, List.foldl_append, hbad]

/-- A concrete all-zero header used for witnesses. -/
def trivialHeader : GadgetHeader :=
  ⟨[0, 0, 0, 0, 0, 0], [0, 0, 0, 0, 0, 0], 0, 0, 0, 0,
   [0, 0, 0, 0, 0, 0], 0, 0, 0, 0, 0, 0, 0, 0,
   [0, 0, 0, 0, 0, 0], 0, 0, 0, 0⟩

theorem C9_mismatch_skipped_witness :
    check_headers { trivialHeader with time := 1 } trivialHeader = false ∧
    load_snapshot_files trivialHeader
        ([trivialHeader] ++ { trivialHeader with time := 1 } :: [trivialHeader])
      = load_snapshot_files trivialHeader ([trivialHeader] ++ [trivialHeader]) :=
  ⟨by decide,
   C9_mismatch_skipped trivialHeader [trivialHeader] [trivialHeader]
     { trivialHeader with time := 1 } (by decide)⟩

/-- GadgetFile.get_block_types: the particle-type-presence heuristic.  The
phases mirror the source loops in order: the trivial all-types check, then
single types (for n), ordered pairs (for n, for m — n and m range
independently, so repeated indices are tried too), ordered triples
(likewise), complements of ordered pairs (npart.sum() - npart[n] -
npart[m], the four-type phase) and complements of single types (the
five-type phase); the first match returns its mask and exhaustion raises
ValueError (modelled as none).  Particle counts are exact naturals (all
realistic counts are far below any machine-word wrap); the subtractions of
the complement phases are over the integers, so a negative value never
matches a block length, as for machine arithmetic on realistic lengths. -/
def get_block_types (length partlen : Nat) (npart : List Nat) :
    Option (List Bool) :=
  if length = npart.sum * partlen then some (List.replicate 6 true)
  else
    match (List.range 6).findSome? (fun n =>
        if length = npart.getD n 0 * partlen then some n else none) with
    | some n => some ((List.range 6).map (fun i => i == n))
    | none =>
      match (List.range 6).findSome? (fun n => (List.range 6).findSome? (fun m =>
          if length = (npart.getD n 0 + npart.getD m 0) * partlen then
            some (n, m) else none)) with
      | some (n, m) => some ((List.range 6).map (fun i => i == n || i == m))
      | none =>
        match (List.range 6).findSome? (fun n => (List.range 6).findSome? (fun m =>
            (List.range 6).findSome? (fun l =>
              if length = (npart.getD n 0 + npart.getD m 0 + npart.getD l 0) * partlen
              then some (n, m, l) else none))) with
        | some (n, m, l) =>
            some ((List.range 6).map (fun i => i == n || i == m || i == l))
        | none =>
          match (List.range 6).findSome? (fun n => (List.range 6).findSome? (fun m =>
              if (length : Int)
                  = ((npart.sum : Int) - (npart.getD n 0 : Int)
                      - (npart.getD m 0 : Int)) * (partlen : Int) then
                some (n, m) else none)) with
          | some (n, m) =>
              some ((List.range 6).map (fun i => !(i == n) && !(i == m)))
          | none =>
            match (List.range 6).findSome? (fun n =>
                if (length : Int)
                    = ((npart.sum : Int) - (npart.getD n 0 : Int)) * (partlen : Int)
                then some n else none) with
            | some n => some ((List.range 6).map (fun i => !(i == n)))
            | none => none

/-- Byte length a presence mask accounts for: the sum of the counts of the
present particle types times the per-particle stride (the presence
invariant stated by the spec). -/
def maskLength (mask : List Bool) (npart : List Nat) (partlen : Nat) : Nat :=
  ((List.range 6).map
    (fun i => if mask.getD i false then npart.getD i 0 else 0)).sum * partlen

/-- C2 counterexample: with npart = [3,0,0,0,0,0], stride 1 and block length
6, no subset of distinct particle types has counts summing to the block
length (the achievable subset sums are 0 and 3), so by the claim the
inference should raise an error; the code instead matches the two-type
candidate (n,m) = (0,0) — the loops do not force distinct indices — and
returns the single-type mask type0, whose recomputed length 3 is not the
block length 6. -/
theorem C2_counterexample :
    get_block_types 6 1 [3, 0, 0, 0, 0, 0]
      = some [true, false, false, false, false, false] ∧
    maskLength [true, false, false, false, false, false] [3, 0, 0, 0, 0, 0] 1 ≠ 6 := by
  constructor
  · decide
  · decide

/-- C2 amended: presence inference first checks the all-types length, then
tries ordered tuples of one, two and three particle types with repeated
indices allowed, then complements of ordered pairs and of single types, in
that order, returning the mask of the first candidate whose summed counts
(with multiplicity, times the stride) equal the block length, and raises an
error only when no candidate matches.  In particular a block of length
(npart[0]+npart[2])*stride is inferred as exactly the mask for type0 and
type2 whenever the all-types check, the six single-type candidates and the
earlier pair candidates (0,0) and (0,1) do not match that length. -/
theorem C2_first_match (npart : List Nat) (partlen L : Nat)
    (hL : L = (npart.getD 0 0 + npart.getD 2 0) * partlen)
    (hall : L ≠ npart.sum * partlen)
    (hsingle : ∀ n < 6, L ≠ npart.getD n 0 * partlen)
    (h00 : L ≠ (npart.getD 0 0 + npart.getD 0 0) * partlen)
    (h01 : L ≠ (npart.getD 0 0 + npart.getD 1 0) * partlen) :
    get_block_types L partlen npart
      = some [true, false, true, false, false, false] := by
  have hs0 := hsingle 0 (by norm_num)
  have hs1 := hsingle 1 (by norm_num)
  have hs2 := hsingle 2 (by norm_num)
  have hs3 := hsingle 3 (by norm_num)
  have hs4 := hsingle 4 (by norm_num)
  have hs5 := hsingle 5 (by norm_num)
  simp only [get_block_types, show List.range 6 = [0, 1, 2, 3, 4, 5] from by decide,
    List.findSome?_cons, List.findSome?_nil,
    if_neg hall, if_neg hs0, if_neg hs1, if_neg hs2, if_neg hs3, if_neg hs4,
    if_neg hs5, if_neg h00, if_neg h01, if_pos hL]
  decide

theorem C2_first_match_witness :
    get_block_types 3 1 [1, 5, 2, 9, 9, 9]
      = some [true, false, true, false, false, false] :=
  C2_first_match [1, 5, 2, 9, 9, 9] 1 3 (by decide) (by decide)
    (by decide) (by decide) (by decide)

/-- Element data types assigned by the reader heuristics. -/
inductive GDataType
  | float32
  | float64
  | int32
  | int64
  deriving Repr, DecidableEq

/-- The partlen/data_type heuristic of GadgetFile.init, applied to every
non-HEAD block once the header is known; t_part is the sum of this file's
particle counts and length the block's payload length in bytes. -/
def infer_type_stride (name : String) (length t_part : Nat) : GDataType × Nat :=
  if name = "POS " ∨ name = "VEL " then
    if length = t_part * 24 then (GDataType.float64, 24) else (GDataType.float32, 12)
  else if name = "ID  " then
    if length = t_part * 4 then (GDataType.int32, 4) else (GDataType.int64, 8)
  else
    if length = t_part * 8 then (GDataType.float64, 8) else (GDataType.float32, 4)

/-- C3: the element type and stride of a scanned block are inferred exactly
as claimed: POS and VEL blocks get float64 with stride 24 when length =
t_part*24 and float32 with stride 12 otherwise; ID blocks get int32 with
stride 4 when length = t_part*4 and int64 with stride 8 otherwise; every
other block gets float64 with stride 8 when length = t_part*8 and float32
with stride 4 otherwise; and no assignment outside these six ever occurs. -/
theorem C3_type_stride (name : String) (length t_part : Nat) :
    ((name = "POS " ∨ name = "VEL ") →
      infer_type_stride name length t_part
        = if length = t_part * 24 then (GDataType.float64, 24)
          else (GDataType.float32, 12)) ∧
    (name = "ID  " →
      infer_type_stride name length t_part
        = if length = t_part * 4 then (GDataType.int32, 4)
          else (GDataType.int64, 8)) ∧
    (name ≠ "POS " → name ≠ "VEL " → name ≠ "ID  " →
      infer_type_stride name length t_part
        = if length = t_part * 8 then (GDataType.float64, 8)
          else (GDataType.float32, 4)) ∧
    infer_type_stride name length t_part ∈
      [(GDataType.float64, 24), (GDataType.float32, 12), (GDataType.int32, 4),
       (GDataType.int64, 8), (GDataType.float64, 8), (GDataType.float32, 4)] := by
  refine ⟨fun h => ?_, fun h => ?_, fun h1 h2 h3 => ?_, ?_⟩
  · rw [infer_type_stride, if_pos h]
  · rcases h with rfl
    rfl
  · rw [infer_type_stride, if_neg (by tauto), if_neg h3]
  · unfold infer_type_stride
    split_ifs <;> simp

theorem C3_type_stride_witness :
    infer_type_stride "POS " 48 2 = (GDataType.float64, 24) ∧
    infer_type_stride "ID  " 8 2 = (GDataType.int32, 4) ∧
    infer_type_stride "RHO " 16 2 = (GDataType.float64, 8) := by
  refine ⟨?_, ?_, ?_⟩
  · have h := (C3_type_stride "POS " 48 2).1 (Or.inl rfl)
    simpa using h
  · have h := (C3_type_stride "ID  " 8 2).2.1 rfl
    simpa using h
  · have h := (C3_type_stride "RHO " 16 2).2.2.1 (by decide) (by decide) (by decide)
    simpa using h

/-- Byte reversal of a w-byte word, as performed by ndarray.byteswap and by
reading a foreign-order field. -/
def swapBytes (w x : Nat) : Nat := bytesToNatLE ((natToBytesLE w x).reverse)

/-- Result of GadgetFile.check_format: format2 is whether the file is
self-describing (format 2), swapped whether the endianness is the foreign
byte order. -/
structure FormatInfo where
  format2 : Bool
  swapped : Bool
  deriving Repr, DecidableEq

/-- GadgetFile.check_format: the first 4 bytes of the file, unpacked as a
native-order unsigned integer r (struct code =I), classify the file; any
unrecognized value raises IOError (File corrupt). -/
def check_format (r : Nat) : Except String FormatInfo :=
  if r = 8 then Except.ok ⟨true, false⟩
  else if r = 134217728 then Except.ok ⟨true, true⟩
  else if r = 65536 then Except.ok ⟨false, true⟩
  else if r = 256 then Except.ok ⟨false, false⟩
  else Except.error "File corrupt. First integer is unrecognized"

/-- C4: format classification maps 8 to self-describing native order,
134217728 (the 4-byte byte-swap of 8) to self-describing foreign order,
256 to legacy native order, 65536 (the byte-swap of 256) to legacy foreign
order, and fails with an error for every other value. -/
theorem C4_check_format (r : Nat) :
    check_format 8 = Except.ok ⟨true, false⟩ ∧
    check_format 134217728 = Except.ok ⟨true, true⟩ ∧
    check_format 256 = Except.ok ⟨false, false⟩ ∧
    check_format 65536 = Except.ok ⟨false, true⟩ ∧
    swapBytes 4 8 = 134217728 ∧
    swapBytes 4 256 = 65536 ∧
    (r ≠ 8 → r ≠ 134217728 → r ≠ 65536 → r ≠ 256 →
      check_format r = Except.error "File corrupt. First integer is unrecognized") := by
  refine ⟨rfl, rfl, rfl, rfl, by decide, by decide, fun h1 h2 h3 h4 => ?_⟩
  rw [check_format, if_neg h1, if_neg h2, if_neg h3, if_neg h4]

theorem C4_check_format_witness :
    check_format 7 = Except.error "File corrupt. First integer is unrecognized" :=
  (C4_check_format 7).2.2.2.2.2.2 (by decide) (by decide) (by decide) (by decide)

/-- The tail of the per-block scan loop in GadgetFile.init: with extra_len
= t_part*partlen recomputed from the particle counts, the reader seeks by
extra_len instead of the stored 32-bit length when extra_len is 2^32 or
more; the footer is then read and compared against the stored length
(raising IOError on mismatch), and only after that check does the overflow
case replace the recorded block length with the recomputed value.  Returns
the pair (seek distance, recorded block length) or the footer error. -/
def scan_block_tail (stored footer t_part partlen : Nat) :
    Except String (Nat × Nat) :=
  let extra_len := t_part * partlen
  let seek := if extra_len ≥ 2 ^ 32 then extra_len else stored
  if footer ≠ stored then Except.error "Corrupt record in footer"
  else Except.ok (seek, if extra_len ≥ 2 ^ 32 then extra_len else stored)

/-- C5 counterexample: a block whose recomputed length (2^30+1)*4 = 2^32+4
overflows 32 bits, with a stored (wrapped) length 4 and a footer 5: the
scan fails with the corrupt-footer error, i.e. the footer IS validated
against the wrapped stored value in the overflow case as well,
contradicting the claim that no footer-equals-stored-length check is
enforced for overflowing blocks. -/
theorem C5_counterexample :
    (2 ^ 30 + 1) * 4 ≥ 2 ^ 32 ∧
    scan_block_tail 4 5 (2 ^ 30 + 1) 4 = Except.error "Corrupt record in footer" := by
  constructor
  · norm_num
  · rfl

/-- C5 amended: the footer is always validated against the stored (wrapped)
length value, in the overflow case as well; when the footer matches, an
overflowing block (t_part*partlen at least 2^32) is seeked past using the
recomputed length, which is also recorded as the block's length, while a
non-overflowing block uses the stored value for both. -/
theorem C5_overflow_scan (stored footer t_part partlen : Nat) :
    (footer ≠ stored →
      scan_block_tail stored footer t_part partlen
        = Except.error "Corrupt record in footer") ∧
    (footer = stored → t_part * partlen ≥ 2 ^ 32 →
      scan_block_tail stored footer t_part partlen
        = Except.ok (t_part * partlen, t_part * partlen)) ∧
    (footer = stored → t_part * partlen < 2 ^ 32 →
      scan_block_tail stored footer t_part partlen
        = Except.ok (stored, stored)) := by
  refine ⟨fun h => ?_, fun h ho => ?_, fun h hno => ?_⟩
  · simp only [scan_block_tail]
    rw [if_pos h]
  · simp only [scan_block_tail]
    rw [if_neg (fun hh => hh h)]
    simp only [if_pos ho]
  · have hn : ¬ t_part * partlen ≥ 2 ^ 32 := not_le.mpr hno
    simp only [scan_block_tail]
    rw [if_neg (fun hh => hh h)]
    simp only [if_neg hn]

theorem C5_overflow_scan_witness :
    scan_block_tail 4 4 (2 ^ 30 + 1) 4
      = Except.ok ((2 ^ 30 + 1) * 4, (2 ^ 30 + 1) * 4) ∧
    scan_block_tail 12 12 1 12 = Except.ok (12, 12) :=
  ⟨(C5_overflow_scan 4 4 (2 ^ 30 + 1) 4).2.1 rfl (by norm_num),
   (C5_overflow_scan 12 12 1 12).2.2 rfl (by norm_num)⟩

/-- The two Python exception kinds _load_array can raise. -/
inductive LoadError
  | keyError
  | ioError
  deriving Repr, DecidableEq

/-- GadgetSnap._family_has_loadable_array: the translated block name is
looked up in the snapshot's block list (a Python dict access that raises
KeyError when the name is absent); for a concrete family the block's
family list is tested for membership, and for fam = none the test is
whether every family of the snapshot is covered by the block
(set(self.families()) is a subset of set(self._block_list[name])). -/
def family_has_loadable_array (block_list : List (String × List Nat))
    (families : List Nat) (fam : Option Nat) (name : String) :
    Except LoadError Bool :=
  match block_list.lookup name with
  | none => Except.error LoadError.keyError
  | some fams =>
    match fam with
    | some f => Except.ok (fams.contains f)
    | none => Except.ok (families.all (fun g => fams.contains g))

/-- The guard at the top of GadgetSnap._load_array: when the array is not
loadable for the requested scope, fam = none raises KeyError (Block not
available for all families) and a concrete family raises IOError (No such
array on disk); a KeyError raised by the dict lookup inside
_family_has_loadable_array propagates unchanged.  none means the load
proceeds without error. -/
def load_array_outcome (block_list : List (String × List Nat))
    (families : List Nat) (fam : Option Nat) (name : String) :
    Option LoadError :=
  match family_has_loadable_array block_list families fam name with
  | Except.error e => some e
  | Except.ok true => none
  | Except.ok false =>
    match fam with
    | none => some LoadError.keyError
    | some _ => some LoadError.ioError

/-- C1 counterexample: the block list has POS for family 0 only and the
snapshot has families 0 and 1; requesting POS for the concrete family 1
(a quantity absent for the requested non-None family) raises IOError, not
the KeyError the claim requires. -/
theorem C1_counterexample :
    load_array_outcome [("POS ", [0])] [0, 1] (some 1) "POS "
      = some LoadError.ioError ∧
    LoadError.ioError ≠ LoadError.keyError := by
  constructor
  · rfl
  · decide

/-- C1 amended: the two error kinds are exchanged with respect to the
claim — when a quantity present in the block list cannot be loaded for a
requested concrete family the load fails with IOError; when it is
requested for all families (fam = none) but is only partially present it
fails with KeyError (as it also does, via the dictionary lookup, when the
name is entirely absent); and no error is raised when the quantity is
loadable for the requested scope. -/
theorem C1_load_array_errors (block_list : List (String × List Nat))
    (families : List Nat) (name : String) :
    (∀ fams f, block_list.lookup name = some fams →
      load_array_outcome block_list families (some f) name
        = if fams.contains f then none else some LoadError.ioError) ∧
    (∀ fams, block_list.lookup name = some fams →
      load_array_outcome block_list families none name
        = if families.all (fun g => fams.contains g) then none
          else some LoadError.keyError) ∧
    (∀ fam, block_list.lookup name = none →
      load_array_outcome block_list families fam name
        = some LoadError.keyError) := by
  refine ⟨fun fams f hf => ?_, fun fams hf => ?_, fun fam hf => ?_⟩
  · simp only [load_array_outcome, family_has_loadable_array, hf]
    cases hc : fams.contains f <;> simp [hc]
  · simp only [load_array_outcome, family_has_loadable_array, hf]
    cases hc : families.all (fun g => fams.contains g) <;> simp [hc]
  · cases fam <;> simp [load_array_outcome, family_has_loadable_array, hf]

theorem C1_load_array_errors_witness :
    load_array_outcome [("POS ", [0])] [0, 1] (some 0) "POS " = none ∧
    load_array_outcome [("POS ", [0])] [0, 1] none "POS "
      = some LoadError.keyError ∧
    load_array_outcome [("POS ", [0])] [0, 1] (some 1) "MASS"
      = some LoadError.keyError := by
  have h := C1_load_array_errors [("POS ", [0])] [0, 1] "POS "
  have h2 := C1_load_array_errors [("POS ", [0])] [0, 1] "MASS"
  refine ⟨?_, ?_, ?_⟩
  · have := h.1 [0] 0 rfl
    simpa using this
  · have := h.2.1 [0] rfl
    simpa using this
  · exact h2.2.2 (some 1) rfl

/-- Effect of GadgetFile.write_block on the caller's array big_data, with
elements viewed as w-byte words: when the file's stored byte order differs
from the native one, big_data.byteswap(True) reverses the bytes of every
element in place before the data is written; with native byte order the
array is not touched. -/
def write_block_array_effect (foreign : Bool) (w : Nat) (data : List Nat) :
    List Nat :=
  if foreign then data.map (swapBytes w) else data

/-- C10 counterexample: an all-zero array is byte-order palindromic, so
after a successful foreign-order write_block the caller's array still
holds exactly its original values, contrary to the claim that it no
longer holds them. -/
theorem C10_counterexample :
    write_block_array_effect true 4 [0, 0] = [0, 0] := by decide

theorem list_map_eq_self_mem {α : Type} (f : α → α) (l : List α)
    (h : l.map f = l) : ∀ x ∈ l, f x = x := by
  induction l with
  | nil => simp
  | cons a l ih =>
    simp only [List.map_cons, List.cons.injEq] at h
    intro x hx
    rcases List.mem_cons.mp hx with rfl | hx
    · exact h.1
    · exact ih h.2 x hx

/-- C10 amended: when the file's byte order is foreign, every element of
the caller's array is replaced in place by its byte-reversal before being
written — so after the call the array holds the byte-swapped words, which
differ from the original contents whenever some element is not
byte-order palindromic — and when the byte order is native the caller's
array is left unchanged. -/
theorem C10_write_block_inplace_swap (w : Nat) (data : List Nat) :
    write_block_array_effect false w data = data ∧
    write_block_array_effect true w data = data.map (swapBytes w) ∧
    ((∃ x ∈ data, swapBytes w x ≠ x) →
      write_block_array_effect true w data ≠ data) := by
  refine ⟨rfl, rfl, ?_⟩
  rintro ⟨x, hx, hne⟩ heq
  rw [write_block_array_effect, if_pos rfl] at heq
  exact hne (list_map_eq_self_mem (swapBytes w) data heq x hx)

theorem C10_write_block_inplace_swap_witness :
    write_block_array_effect true 4 [1] ≠ [1] ∧
    write_block_array_effect false 4 [1] = [1] := by
  have h := C10_write_block_inplace_swap 4 [1]
  exact ⟨h.2.2 ⟨1, by decide, by decide⟩, h.1⟩

/-- The rescaling applied by smooth (sph module) to the per-shard
smoothing-length results when K = _threaded_smooth sharded trees were
populated: sm /= _threaded_smooth ** 0.3333.  The literal exponent in the
source is the decimal 0.3333, modelled as the exact rational 3333/10000. -/
noncomputable def smooth_rescale (K : Nat) (raw : Real) : Real :=
  raw / (K : Real) ^ (0.3333 : Real)

/-- The rescaling applied by rho to the per-shard density results:
rho *= _threaded_smooth. -/
noncomputable def rho_rescale (K : Nat) (raw : Real) : Real :=
  raw * (K : Real)

/-- C6 counterexample: at K = 8 shards a unit smoothing-length result is
divided by 8^0.3333, not by the cube root 8^(1/3) = 2: the exponent
written in the source is 0.3333, strictly less than one third. -/
theorem C6_counterexample :
    smooth_rescale 8 1 ≠ 1 / (8 : Real) ^ ((1 : Real) / 3) := by
  have h8 : (1 : Real) < 8 := by norm_num
  have hexp : (0.3333 : Real) < 1 / 3 := by norm_num
  have hlt : (8 : Real) ^ (0.3333 : Real) < (8 : Real) ^ ((1 : Real) / 3) :=
    (Real.rpow_lt_rpow_left_iff h8).mpr hexp
  have hpos : (0 : Real) < (8 : Real) ^ (0.3333 : Real) :=
    Real.rpow_pos_of_pos (by norm_num) _
  have hdiv : 1 / (8 : Real) ^ ((1 : Real) / 3) < 1 / (8 : Real) ^ (0.3333 : Real) :=
    one_div_lt_one_div_of_lt hpos hlt
  intro heq
  rw [smooth_rescale] at heq
  push_cast at heq
  rw [heq] at hdiv
  exact lt_irrefl _ hdiv

/-- C6 amended: with K sharded trees (K > 1) the per-shard smoothing
lengths are rescaled by dividing by K^0.3333 — the source's truncated
decimal stand-in for the cube-root exponent, strictly smaller than 1/3, so
positive results come out strictly larger than division by K^(1/3) would
give — and the per-shard densities are rescaled by multiplying by exactly
K. -/
theorem C6_shard_rescale (K : Nat) (hK : 1 < K) (raw : Real) (hraw : 0 < raw) :
    smooth_rescale K raw = raw / (K : Real) ^ (0.3333 : Real) ∧
    rho_rescale K raw = raw * K ∧
    raw / (K : Real) ^ ((1 : Real) / 3) < smooth_rescale K raw := by
  refine ⟨rfl, rfl, ?_⟩
  have hK1 : (1 : Real) < (K : Real) := by exact_mod_cast hK
  have hlt : (K : Real) ^ (0.3333 : Real) < (K : Real) ^ ((1 : Real) / 3) :=
    (Real.rpow_lt_rpow_left_iff hK1).mpr (by norm_num)
  have hpos : (0 : Real) < (K : Real) ^ (0.3333 : Real) :=
    Real.rpow_pos_of_pos (by positivity) _
  exact div_lt_div_of_pos_left hraw hpos hlt

theorem C6_shard_rescale_witness :
    smooth_rescale 8 1 = 1 / ((8 : Nat) : Real) ^ (0.3333 : Real) ∧
    (1 : Real) / ((8 : Nat) : Real) ^ ((1 : Real) / 3) < smooth_rescale 8 1 := by
  have h := C6_shard_rescale 8 (by norm_num) 1 (by norm_num)
  exact ⟨h.1, h.2.2⟩

/-- The octave level count handed to _interpolated_renderer by render_image
and by to_3d_grid when approximate_fast is enabled:
int(np.floor(np.log2(nx / 20))), where nx / 20 is Python-2 integer
division; for a positive integer argument the floor of its real base-2
logarithm is Nat.log2. -/
def interp_levels (nx : Nat) : Nat := Nat.log2 (nx / 20)

/-- The level count the claim describes: ceil(log2(nx/20)), with real
division by 20. -/
noncomputable def interp_levels_claim (nx : Nat) : Int :=
  Int.ceil (Real.logb 2 ((nx : Real) / 20))

/-- C7 counterexample: at target resolution nx = 500 the interpolated
renderer is built with floor(log2(500 / 20)) = floor(log2 25) = 4 octave
levels, whereas ceil(log2(500/20)) = 5. -/
theorem C7_counterexample :
    interp_levels 500 = 4 ∧ interp_levels_claim 500 = 5 ∧
    (4 : Int) ≠ (5 : Int) := by
  refine ⟨?_, ?_, by decide⟩
  · rw [interp_levels, Nat.log2_eq_log_two]
    exact Nat.log_eq_of_pow_le_of_lt_pow (by norm_num) (by norm_num)
  have h25 : ((500 : Nat) : Real) / 20 = 25 := by norm_num
  have hb : (1 : Real) < 2 := by norm_num
  have h32 : (2 : Real) ^ (5 : Real) = 32 := by
    rw [show (5 : Real) = ((5 : Nat) : Real) by norm_num, Real.rpow_natCast]
    norm_num
  have h16 : (2 : Real) ^ (4 : Real) = 16 := by
    rw [show (4 : Real) = ((4 : Nat) : Real) by norm_num, Real.rpow_natCast]
    norm_num
  have hup : Real.logb 2 25 ≤ (5 : Real) :=
    (Real.logb_le_iff_le_rpow hb (by norm_num)).mpr (by rw [h32]; norm_num)
  have hdown : (4 : Real) < Real.logb 2 25 :=
    (Real.lt_logb_iff_rpow_lt hb (by norm_num)).mpr (by rw [h16]; norm_num)
  rw [interp_levels_claim, h25, Int.ceil_eq_iff]
  constructor
  · push_cast
    linarith
  · push_cast
    linarith

/-- C7 amended: the number of octave levels used by the interpolated
renderer is floor(log2(nx / 20)) with integer division by 20;
equivalently, for nx at least 20, it is the unique k with
20 * 2^k <= nx < 20 * 2^(k+1). -/
theorem C7_levels (nx k : Nat) (hnx : 20 ≤ nx) :
    interp_levels nx = k ↔ 20 * 2 ^ k ≤ nx ∧ nx < 20 * 2 ^ (k + 1) := by
  have h20 : (0 : Nat) < 20 := by norm_num
  have hm : nx / 20 ≠ 0 := by
    have : 1 ≤ nx / 20 := (Nat.one_le_div_iff h20).mpr hnx
    omega
  rw [interp_levels, Nat.log2_eq_log_two,
      Nat.log_eq_iff (Or.inr ⟨by norm_num, hm⟩)]
  constructor
  · rintro ⟨h1, h2⟩
    refine ⟨?_, ?_⟩
    · have := (Nat.le_div_iff_mul_le h20).mp h1
      omega
    · have := (Nat.div_lt_iff_lt_mul h20).mp h2
      omega
  · rintro ⟨h1, h2⟩
    refine ⟨?_, ?_⟩
    · exact (Nat.le_div_iff_mul_le h20).mpr (by omega)
    · exact (Nat.div_lt_iff_lt_mul h20).mpr (by omega)

theorem C7_levels_witness : interp_levels 500 = 4 :=
  (C7_levels 500 4 (by norm_num)).mpr (by norm_num)
